import Mathlib

/-!
Shallow embedding of `src/index.ts` (a Flatfile import-schema configuration):
the guard library, the validator factories, the `runValidations` aggregator,
and the declarative Sheet/Workbook/Space schema graph, together with theorems
settling the specification claims about them.

JavaScript strings are modelled as lists of UTF-16 code units (`JsString`);
the concrete strings appearing in the configuration are ASCII, so a helper
converts Lean string literals code-point-wise.
-/

namespace Stormloop

/-- A JavaScript string, as its sequence of UTF-16 code units. -/
abbrev JsString := List Nat

/-- Embed an ASCII Lean string literal as a `JsString` (code-point = code unit
for ASCII, which covers every literal used in the source). -/
def jsOfString (s : String) : JsString := s.data.map Char.toNat

/-- A JavaScript number: either the NaN value or an ordinary numeric value
(modelled as a rational; the source only ever compares numbers with `=== 0`
and `Number.isNaN`, so finer float structure is irrelevant). -/
inductive JsNum where
  | nan
  | val (q : ℚ)
deriving DecidableEq

/-- The universe of JavaScript values the guards can receive: `null`,
`undefined`, strings, numbers, booleans, and (opaquely) any other object —
e.g. a `Message` instance reaching `isNotNil` inside `runValidations`. -/
inductive JSVal where
  | nullV
  | undefinedV
  | str (s : JsString)
  | num (n : JsNum)
  | boolV (b : Bool)
  | object
deriving DecidableEq

/-
 * Guards
-/

/-- `const isNull = (x) => x === null` -/
def isNull : JSVal → Bool
  | .nullV => true
  | _ => false

/-- `const isUndefined = (x) => x === undefined` -/
def isUndefined : JSVal → Bool
  | .undefinedV => true
  | _ => false

/-- `const isString = (x) => typeof x === 'string'` -/
def isString : JSVal → Bool
  | .str _ => true
  | _ => false

/-- `const isNumber = (x) => typeof x === 'number'` -/
def isNumber : JSVal → Bool
  | .num _ => true
  | _ => false

/-- JavaScript strict equality `x === ''`: true exactly when `x` is the empty
string (strict equality across differing types is false). -/
def strictEqEmptyString : JSVal → Bool
  | .str s => s.isEmpty
  | _ => false

/-- `const isNil = (x) => isNull(x) || isUndefined(x) || (isString(x) && x === '')` -/
def isNil (x : JSVal) : Bool :=
  isNull x || isUndefined x || (isString x && strictEqEmptyString x)

/-- `const isNotNil = (x) => !isNil(x)` -/
def isNotNil (x : JSVal) : Bool := !isNil x

/-- JavaScript strict equality `x === 0`: true exactly for the number zero
(`NaN === 0` is false; `-0 === 0` is true, and the rational model has a
single zero). -/
def strictEqZero : JSVal → Bool
  | .num (.val q) => q == 0
  | _ => false

/-- `Number.isNaN(x)`: true exactly for the NaN number value (no coercion). -/
def numberIsNaN : JSVal → Bool
  | .num .nan => true
  | _ => false

/-- JavaScript strict equality `x === false`. -/
def strictEqFalse : JSVal → Bool
  | .boolV b => !b
  | _ => false

/-- `const isFalsy = (x) => x === 0 || Number.isNaN(x) || x === false || isNil(x)` -/
def isFalsy (x : JSVal) : Bool :=
  strictEqZero x || numberIsNaN x || strictEqFalse x || isNil x

/-- `const isTruthy = (x) => !isFalsy(x)` -/
def isTruthy (x : JSVal) : Bool := !isFalsy x

/-
 * Field Validations
-/

/-- `Message` from `@flatfile/configure`, as constructed by
`new Message(text, kind, stage)`; the source only builds messages with
kind `'error'` and stage `'validate'`. -/
structure Message where
  text : String
  kind : String
  stage : String
deriving DecidableEq

/-- A candidate cell value reaching a validator factory. The TypeScript
parameter is typed `string`, but at runtime the platform may also hand the
nil values `null` and `undefined` through the untyped boundary, so those are
included. -/
inductive CellVal where
  | nullV
  | undefinedV
  | str (s : JsString)
deriving DecidableEq

/-- UTF-16 code unit of the character `@`. -/
def atSign : Nat := 64

/-- `validateEmail = (value) => () => { if (!value.includes('@')) return new
Message('Invalid email address.', 'error', 'validate'); return }` —
the result of invoking the produced check. On a string receiver,
`value.includes('@')` tests substring containment of the one-character
string `@`; on `null` or `undefined` the property access `value.includes`
throws a TypeError, modelled as `Except.error`. -/
def validateEmail (value : CellVal) : Except String (Option Message) :=
  match value with
  | .str s =>
      if !(s.contains atSign) then
        .ok (some ⟨"Invalid email address.", "error", "validate"⟩)
      else
        .ok none
  | .nullV => .error "TypeError: Cannot read properties of null (reading includes)"
  | .undefinedV => .error "TypeError: Cannot read properties of undefined (reading includes)"

/-- `RegExp.prototype.test` applies `ToString` to a non-string argument:
`null` becomes the four-character string `null`, `undefined` the
nine-character string `undefined`; it never throws. -/
def toStringForRegexTest : CellVal → JsString
  | .str s => s
  | .nullV => jsOfString "null"
  | .undefinedV => jsOfString "undefined"

/-- The JavaScript line-terminator code units LF, CR, LINE SEPARATOR and
PARAGRAPH SEPARATOR, which `.` (without the `s` flag) does not match. -/
def isLineTerminator (c : Nat) : Bool :=
  c == 10 || c == 13 || c == 8232 || c == 8233

/-- `/^.{8,72}$/.test s`: the whole string is 8 to 72 code units, none of
which is a line terminator (`.` matches any other single code unit; the
pattern is anchored at both ends and greedy repetition makes the test
equivalent to this length-and-content condition). -/
def testDotRange8to72 (s : JsString) : Bool :=
  8 ≤ s.length && s.length ≤ 72 && s.all (fun c => !isLineTerminator c)

/-- `/^[a-zA-Z0-9]+$/.test s`: the string is nonempty and every code unit is
an ASCII letter or digit. -/
def isAsciiAlphaNum (c : Nat) : Bool :=
  (65 ≤ c && c ≤ 90) || (97 ≤ c && c ≤ 122) || (48 ≤ c && c ≤ 57)

/-- See `isAsciiAlphaNum`. -/
def testAlphaNum (s : JsString) : Bool :=
  !s.isEmpty && s.all isAsciiAlphaNum

/-- `validateRegex = (regex) => (value) => () => { if (isFalsy(regex.test(value)))
return new Message('Value does not meet required format.', 'error', 'validate');
return }` — the result of invoking the produced check. The regex is passed as
its `test` function on code-unit strings; the guard applied to the boolean
test result is the source's own `isFalsy`. -/
def validateRegex (test : JsString → Bool) (value : CellVal) : Option Message :=
  if isFalsy (.boolV (test (toStringForRegexTest value))) then
    some ⟨"Value does not meet required format.", "error", "validate"⟩
  else
    none

/-- A zero-argument check as consumed by `runValidations`: invoking it yields
a `Message` (fail) or `undefined` (pass), modelled as `Option Message`. -/
abbrev Check := Unit → Option Message

/-- The JavaScript value a check invocation leaves in the intermediate array
of `runValidations`: a returned `Message` is an object, a `void` return is
`undefined`. -/
def checkResultVal : Option Message → JSVal
  | some _ => .object
  | none => .undefinedV

/-- `runValidations = (...fns) => fns.reduce((acc, fn) => [...acc, fn()], [])
.filter(isNotNil)`: invoke every check left to right, appending each result,
then keep the results the source's `isNotNil` guard accepts. -/
def runValidations (fns : List Check) : List Message :=
  (fns.foldl (fun acc fn => acc ++ [fn ()]) []).filterMap
    (fun r => if isNotNil (checkResultVal r) then r else none)

/-
 * Main — declarative schema graph
-/

/-- Per-stage visibility flags of a field; the source key `export` is a Lean
keyword, rendered here as `exportStage`. -/
structure StageVisibility where
  mapping : Bool
  review : Bool
  exportStage : Bool
deriving DecidableEq

/-- Which field constructor a field was built with: `TextField`,
`NumberField`, `OptionField`, `ReferenceField`, or `SmartDateField`. -/
inductive FieldKind where
  | text
  | number
  | option
  | reference
  | date
deriving DecidableEq

/-- One field of a sheet, as passed to its constructor. `sheetKey`,
`foreignKey` and `relationship` record the reference-target properties
written in the source literal (also on the `TextField`s that carry them);
`fString` is the `SmartDateField` format string. Option-field key/label
mappings are not modelled: no claim depends on them, and the country and
time-zone mappings come from fragment modules outside this file. -/
structure FieldDef where
  name : String
  label : String
  kind : FieldKind
  required : Bool
  primary : Bool
  unique : Bool
  stageVisibility : StageVisibility
  description : Option String := none
  sheetKey : Option String := none
  foreignKey : Option String := none
  relationship : Option String := none
  fString : Option String := none
deriving DecidableEq

/-- `new Sheet(name, fields)`: a named, ordered field list (the mapping keys
of the source literal become the `name` components, in literal order). -/
structure SheetDef where
  name : String
  fields : List FieldDef
deriving DecidableEq

/-- `new Workbook({name, slug, namespace, sheets})`; `namespace` is a Lean
keyword, rendered as `namespaceName`. -/
structure WorkbookDef where
  name : String
  slug : String
  namespaceName : String
  sheets : List SheetDef
deriving DecidableEq

/-- `new SpaceConfig({name, slug, workbookConfigs})`. -/
structure SpaceConfigDef where
  name : String
  slug : String
  workbookConfigs : List (String × WorkbookDef)
deriving DecidableEq

/-- The remaining fields of the `Employees` sheet literal, `EmploymentType`
through `Timezone`, in source order (split only to keep definitions short). -/
def employeesFieldsTail : List FieldDef := [
  { name := "EmploymentType", label := "Employment Type", kind := .text,
    required := false, primary := false, unique := false,
    description := some "Every entry in this column must also be in the [Name] Column in the sheet [EmploymentTypes]",
    stageVisibility := ⟨true, true, true⟩ },
  { name := "OvertimeRule", label := "Overtime Rule", kind := .text,
    required := false, primary := false, unique := false,
    stageVisibility := ⟨true, true, true⟩ },
  { name := "SINNumber", label := "SIN Number", kind := .text,
    required := false, primary := false, unique := false,
    description := some "Alpha Numeric Field",
    stageVisibility := ⟨true, true, true⟩ },
  { name := "CertificationNumber", label := "Certification Number", kind := .text,
    required := false, primary := false, unique := false,
    description := some "Alpha Numeric Field",
    stageVisibility := ⟨true, true, true⟩ },
  { name := "Designation", label := "Designation", kind := .text,
    required := false, primary := false, unique := false,
    stageVisibility := ⟨true, true, true⟩ },
  { name := "SeniorityRank", label := "Seniority Rank", kind := .text,
    required := false, primary := false, unique := false,
    stageVisibility := ⟨true, true, true⟩ },
  { name := "SeniorityNumber", label := "Seniority Number", kind := .text,
    required := false, primary := false, unique := false,
    stageVisibility := ⟨true, true, true⟩ },
  { name := "SeniorityDate", label := "Seniority Date", kind := .date,
    required := false, primary := false, unique := false,
    description := some "Must be a valid ISO8601 formatted date (YYYY-MM-DD)",
    stageVisibility := ⟨true, true, true⟩,
    fString := some "yyyy-MM-dd" },
  { name := "SalaryBase", label := "Salary Base", kind := .text,
    required := false, primary := false, unique := false,
    stageVisibility := ⟨true, true, true⟩ },
  { name := "MinDailyCapacity", label := "Min Daily Capacity", kind := .number,
    required := false, primary := false, unique := false,
    description := some "Numeric in hours",
    stageVisibility := ⟨true, true, true⟩ },
  { name := "MaxDailyCapacity", label := "Max Daily Capacity", kind := .number,
    required := false, primary := false, unique := false,
    description := some "Numeric in hours",
    stageVisibility := ⟨true, true, true⟩ },
  { name := "MinWeeklyCapacity", label := "Min Weekly Capacity", kind := .number,
    required := false, primary := false, unique := false,
    description := some "Numeric in hours",
    stageVisibility := ⟨true, true, true⟩ },
  { name := "MaxWeeklyCapacity", label := "Max Weekly Capacity", kind := .number,
    required := false, primary := false, unique := false,
    description := some "Numeric in hours",
    stageVisibility := ⟨true, true, true⟩ },
  { name := "MaxCaseload", label := "Max Caseload", kind := .number,
    required := false, primary := false, unique := false,
    stageVisibility := ⟨true, true, true⟩ },
  { name := "DefaultEmployeeAvailability", label := "Default Employee Availability", kind := .option,
    required := false, primary := false, unique := false,
    description := some "Entries must only be one of the following: [Available, Unavailable, empty value]",
    stageVisibility := ⟨true, true, true⟩ },
  { name := "SubmitVisitAttachments", label := "Submit Visit Attachments", kind := .option,
    required := false, primary := false, unique := false,
    description := some "Answers can either be [yes] or [no]",
    stageVisibility := ⟨true, true, true⟩ },
  { name := "TravelMode", label := "Travel Mode", kind := .option,
    required := false, primary := false, unique := false,
    description := some "Entries must only be one of the following: [Driving, Biking, Walking, Transit, empty value]",
    stageVisibility := ⟨true, true, true⟩ },
  { name := "preferred_language", label := "Preferred Language", kind := .text,
    required := false, primary := false, unique := false,
    description := some "Must be a valid ISO639 Language Code. For English you can enter either \"en\" or \"eng\"",
    stageVisibility := ⟨true, true, true⟩ },
  { name := "Remarks", label := "Remarks", kind := .text,
    required := false, primary := false, unique := false,
    description := some "Free text field",
    stageVisibility := ⟨true, true, true⟩ },
  { name := "CostCentreNumber", label := "Cost Centre Number", kind := .text,
    required := false, primary := false, unique := false,
    description := some "Every entry in this column must also be in the [Number] Column in the sheet [CostCentres]",
    stageVisibility := ⟨true, true, true⟩ },
  { name := "SupplierCode", label := "Supplier Code", kind := .text,
    required := false, primary := false, unique := false,
    description := some "Every entry in this column must also be in the [Code] Column in the sheet [Suppliers]",
    stageVisibility := ⟨true, true, true⟩ },
  { name := "Timezone", label := "Timezone", kind := .option,
    required := false, primary := false, unique := false,
    description := some "Must be a valid time zone name from the IANA Time Zone Database, e.g. America/Toronto or Australia/Sydney",
    stageVisibility := ⟨true, true, true⟩ }]

/-- `const Employees = new Sheet('Employees', {...})`. -/
def Employees : SheetDef :=
  { name := "Employees"
    fields := [
      { name := "id", label := "Id", kind := .text,
        required := true, primary := true, unique := true,
        description := some "Every entry must be unique",
        stageVisibility := ⟨true, true, true⟩ },
      { name := "FirstName", label := "FirstName", kind := .text,
        required := true, primary := false, unique := false,
        stageVisibility := ⟨true, true, true⟩ },
      { name := "LastName", label := "LastName", kind := .text,
        required := true, primary := false, unique := false,
        stageVisibility := ⟨true, true, true⟩ },
      { name := "Salutation", label := "Salutation", kind := .text,
        required := false, primary := false, unique := false,
        stageVisibility := ⟨true, true, true⟩ },
      { name := "Address", label := "Address", kind := .text,
        required := false, primary := false, unique := false,
        stageVisibility := ⟨true, true, true⟩ },
      { name := "SuiteNumber", label := "Suite Number", kind := .text,
        required := false, primary := false, unique := false,
        stageVisibility := ⟨true, true, true⟩ },
      { name := "City", label := "City", kind := .text,
        required := false, primary := false, unique := false,
        stageVisibility := ⟨true, true, true⟩ },
      { name := "Province", label := "Province", kind := .text,
        required := false, primary := false, unique := false,
        description := some "Must be a valid Provincial/State/Subdivision ISO3166-2 Code of Country in Column [Country]",
        stageVisibility := ⟨true, true, true⟩ },
      { name := "Country", label := "Country", kind := .option,
        required := false, primary := false, unique := false,
        description := some "Must be a valid ISO3166 Country Code",
        stageVisibility := ⟨true, true, true⟩ },
      { name := "PostalCode", label := "Postal Code", kind := .text,
        required := false, primary := false, unique := false,
        stageVisibility := ⟨true, true, true⟩ },
      { name := "MainPhoneNumber", label := "Main Phone Number", kind := .text,
        required := false, primary := false, unique := false,
        stageVisibility := ⟨true, true, true⟩ },
      { name := "PersonalPhoneNumber", label := "Personal Phone Number", kind := .text,
        required := false, primary := false, unique := false,
        stageVisibility := ⟨true, true, true⟩ },
      { name := "OtherPhoneNumber", label := "Other Phone Number", kind := .text,
        required := false, primary := false, unique := false,
        stageVisibility := ⟨true, true, true⟩ },
      { name := "FaxNumber", label := "Fax Phone Number", kind := .text,
        required := false, primary := false, unique := false,
        stageVisibility := ⟨true, true, true⟩ },
      { name := "JobTitle", label := "Job Title", kind := .text,
        required := false, primary := false, unique := false,
        stageVisibility := ⟨true, true, true⟩ },
      { name := "EmailAddress", label := "Email Address", kind := .text,
        required := true, primary := false, unique := true,
        description := some "Every entry must be unique. Must be a valid e-mail address",
        stageVisibility := ⟨true, true, true⟩ },
      { name := "Password", label := "Password", kind := .text,
        required := true, primary := false, unique := false,
        description := some "Password: Required minimum of 8 characters and maximum 72 characters",
        stageVisibility := ⟨true, true, true⟩ },
      { name := "DateOfBirth", label := "Date Of Birth", kind := .date,
        required := false, primary := false, unique := false,
        description := some "Must be a valid ISO8601 formatted date (YYYY-MM-DD)",
        stageVisibility := ⟨true, true, true⟩,
        fString := some "yyyy-MM-dd" },
      { name := "Gender", label := "Gender", kind := .option,
        required := false, primary := false, unique := false,
        description := some "Entries must only be one of the following: [Male, Female, M, F, Other]",
        stageVisibility := ⟨true, true, true⟩ },
      { name := "EmploymentDate", label := "Employment Date", kind := .date,
        required := false, primary := false, unique := false,
        description := some "Must be a valid ISO8601 formatted date (YYYY-MM-DD)",
        stageVisibility := ⟨true, true, true⟩,
        fString := some "yyyy-MM-dd" },
      { name := "TerminationDate", label := "Termination Date", kind := .date,
        required := false, primary := false, unique := false,
        description := some "Must be a valid ISO8601 formatted date (YYYY-MM-DD)",
        stageVisibility := ⟨true, true, true⟩,
        fString := some "yyyy-MM-dd" },
      { name := "Status", label := "Status", kind := .option,
        required := true, primary := false, unique := false,
        description := some "Entries must only be one of the following: [Active, Terminated, Suspended, Hold, On Hold, Pending, Applicant, Rejected]",
        stageVisibility := ⟨true, true, true⟩ },
      { name := "PayrollId", label := "Payroll Id", kind := .text,
        required := false, primary := false, unique := false,
        description := some "Alpha Numeric Field",
        stageVisibility := ⟨true, true, true⟩ }]
      ++ employeesFieldsTail }

/-- `const EmployeeRoles = new Sheet('Employee Roles', {...})`; its
`EmployeeId` is the one `ReferenceField` of the configuration. -/
def EmployeeRoles : SheetDef :=
  { name := "Employee Roles"
    fields := [
      { name := "EmployeeId", label := "Employee Id", kind := .reference,
        sheetKey := some "Employees", foreignKey := some "id",
        relationship := some "has-many",
        required := true, primary := true, unique := false,
        description := some "Every entry in this column must also be in the [Id] Column in the sheet [Employees]. The contents of this sheet will be merged into any of the sheets [Employees, EmployeeUpdates] and only migrated when those sheets are migrated. It is not possible to migrate this data by itself.",
        stageVisibility := ⟨true, true, true⟩ },
      { name := "Role", label := "Role", kind := .text,
        required := true, primary := false, unique := false,
        stageVisibility := ⟨true, true, true⟩ }] }

/-- `const EmployeeDepartments = new Sheet('Employee Departments', {...})`;
its `EmployeeId` is a `TextField` that carries reference-style properties in
the source literal. -/
def EmployeeDepartments : SheetDef :=
  { name := "Employee Departments"
    fields := [
      { name := "DepartmentCode", label := "DepartmentCode", kind := .text,
        required := true, primary := false, unique := false,
        description := some "Every entry in this column must also be in the [Code] Column in the sheet [Departments]. The contents of this sheet will be merged into any of the sheets [Employees, EmployeeUpdates] and only migrated when those sheets are migrated. It is not possible to migrate this data by itself.",
        stageVisibility := ⟨true, true, true⟩ },
      { name := "EmployeeId", label := "Employee Id", kind := .text,
        sheetKey := some "Employees", foreignKey := some "id",
        relationship := some "has-many",
        required := true, primary := false, unique := false,
        description := some "Every entry in this column must also be in the [Id] Column in the sheet [Employees]. The contents of this sheet will be merged into any of the sheets [Employees, EmployeeUpdates] and only migrated when those sheets are migrated. It is not possible to migrate this data by itself.",
        stageVisibility := ⟨true, true, true⟩ }] }

/-- `const EmployeeGroups = new Sheet('Employee Groups', {...})`. -/
def EmployeeGroups : SheetDef :=
  { name := "Employee Groups"
    fields := [
      { name := "EmployeeId", label := "Employee Id", kind := .text,
        sheetKey := some "Employees", foreignKey := some "id",
        relationship := some "has-many",
        required := true, primary := false, unique := false,
        description := some "Every entry in this column must also be in the [Id] Column in the sheet [Employees]. The contents of this sheet will be merged into any of the sheets [Employees, EmployeeUpdates] and only migrated when those sheets are migrated. It is not possible to migrate this data by itself.",
        stageVisibility := ⟨true, true, true⟩ },
      { name := "GroupName", label := "Group Name", kind := .text,
        required := true, primary := false, unique := false,
        description := some "Every entry in this column must also be in the [Name] Column in the sheet [Groups]",
        stageVisibility := ⟨true, true, true⟩ }] }

/-- `const AssociatedEmployees = new Sheet('Associated Employees', {...})`. -/
def AssociatedEmployees : SheetDef :=
  { name := "Associated Employees"
    fields := [
      { name := "ClientId", label := "Client Id", kind := .text,
        required := true, primary := true, unique := false,
        description := some "Every entry in this column must also be in the [Id] Column in the sheet [Clients].",
        stageVisibility := ⟨true, true, true⟩ },
      { name := "EmployeeId", label := "Employee Id", kind := .text,
        sheetKey := some "Employees", foreignKey := some "id",
        relationship := some "has-many",
        required := true, primary := false, unique := false,
        description := some "Every entry in this column must also be in the [Id] Column in the sheet [Employees]",
        stageVisibility := ⟨true, true, true⟩ },
      { name := "Description", label := "Description", kind := .text,
        required := false, primary := false, unique := false,
        stageVisibility := ⟨true, true, true⟩ }] }

/-- The `sheets` mapping of the exported workbook, in literal order. -/
def workbookSheets : List SheetDef :=
  [Employees, EmployeeRoles, EmployeeDepartments, EmployeeGroups, AssociatedEmployees]

/-- The `basic` workbook of the exported `SpaceConfig`. -/
def basicWorkbook : WorkbookDef :=
  { name := "Employees", slug := "Employeesworkbook",
    namespaceName := "Employees", sheets := workbookSheets }

/-- `export default new SpaceConfig({...})`. -/
def employeesSpaceConfig : SpaceConfigDef :=
  { name := "Employees", slug := "Employeessc",
    workbookConfigs := [("basic", basicWorkbook)] }

/-
 * Derived schema checks
-/

/-- The number of fields of a sheet whose `primary` flag is set. -/
def countPrimary (s : SheetDef) : Nat :=
  (s.fields.filter fun f => f.primary).length

/-- Whether a field was built with `ReferenceField`. -/
def isReferenceField (f : FieldDef) : Bool :=
  match f.kind with
  | .reference => true
  | _ => false

/-- Whether the reference target named by a field's `sheetKey`/`foreignKey`
exists among the given sheets and is a primary or unique field there. -/
def refTargetIsPrimaryOrUnique (sheets : List SheetDef) (f : FieldDef) : Bool :=
  match f.sheetKey, f.foreignKey with
  | some sk, some fk =>
      match sheets.find? (fun s => s.name == sk) with
      | some s =>
          match s.fields.find? (fun g => g.name == fk) with
          | some g => g.primary || g.unique
          | none => false
      | none => false
  | _, _ => false

/-- Every `ReferenceField` among the sheets targets a primary or unique
field of an existing sheet. -/
def refIntegrityOk (sheets : List SheetDef) : Bool :=
  sheets.all fun s => s.fields.all fun f =>
    !(isReferenceField f) || refTargetIsPrimaryOrUnique sheets f

/-- Every field of every sheet is visible at the mapping, review and export
stages. -/
def allStagesVisible (sheets : List SheetDef) : Bool :=
  sheets.all fun s => s.fields.all fun f =>
    f.stageVisibility.mapping && f.stageVisibility.review && f.stageVisibility.exportStage

/-
 * Concrete messages and sample checks
-/

/-- The message built by a failing email check. -/
def emailInvalidMessage : Message := ⟨"Invalid email address.", "error", "validate"⟩

/-- The message built by a failing pattern check. -/
def formatMessage : Message := ⟨"Value does not meet required format.", "error", "validate"⟩

/-- A check that passes (returns `undefined`). -/
def passingCheck : Check := fun _ => none

/-- A check that fails with the pattern-format message. -/
def failingCheck : Check := fun _ => some formatMessage

/-
 * Helper lemmas about the aggregator
-/

/-- The reduce inside `runValidations` appends one raw result per check, so
starting from any accumulator it yields the accumulator followed by the
checks' results in supplied order. -/
theorem foldl_checks_eq_map (fns : List Check) (acc : List (Option Message)) :
    fns.foldl (fun acc fn => acc ++ [fn ()]) acc = acc ++ fns.map (fun fn => fn ()) := by
  induction fns generalizing acc with
  | nil => simp
  | cons fn fns ih => simp [List.foldl_cons, ih]

/-- `runValidations` is exactly the filterMap of the checks' results: the
non-absent messages, in supplied order. -/
theorem runValidations_eq_filterMap (fns : List Check) :
    runValidations fns = fns.filterMap (fun fn => fn ()) := by
  unfold runValidations
  rw [foldl_checks_eq_map, List.nil_append]
  induction fns with
  | nil => rfl
  | cons fn fns ih =>
      cases h : fn () with
      | none =>
          simp only [List.map_cons, List.filterMap_cons, h]
          simpa [checkResultVal, isNotNil, isNil, isNull, isUndefined, isString,
            strictEqEmptyString] using ih
      | some m =>
          simp only [List.map_cons, List.filterMap_cons, h]
          simpa [checkResultVal, isNotNil, isNil, isNull, isUndefined, isString,
            strictEqEmptyString] using ih

/-
 * Claim theorems
-/

/-- Claim C1: `runValidations` invokes every supplied check exactly once, in
the order supplied, with no short-circuiting: the reduce produces one raw
result per check in supplied order, and the returned sequence is exactly the
non-absent messages in that order; for three checks where only the second
fails the result is the one-element sequence of the second check's message,
and two failing checks yield both messages in supplied order with no merging
or deduplication. -/
theorem C1_runValidations_order :
    (∀ fns : List Check,
        fns.foldl (fun acc fn => acc ++ [fn ()]) ([] : List (Option Message)) =
          fns.map (fun fn => fn ())) ∧
    (∀ fns : List Check, runValidations fns = fns.filterMap (fun fn => fn ())) ∧
    (∀ c1 c2 c3 : Check, ∀ m : Message,
        c1 () = none → c2 () = some m → c3 () = none →
          runValidations [c1, c2, c3] = [m]) ∧
    (∀ c1 c2 : Check, ∀ m1 m2 : Message,
        c1 () = some m1 → c2 () = some m2 →
          runValidations [c1, c2] = [m1, m2]) := by
  refine ⟨fun fns => by simpa using foldl_checks_eq_map fns [],
    runValidations_eq_filterMap, ?_, ?_⟩
  · intro c1 c2 c3 m h1 h2 h3
    rw [runValidations_eq_filterMap]
    simp [List.filterMap_cons, h1, h2, h3]
  · intro c1 c2 m1 m2 h1 h2
    rw [runValidations_eq_filterMap]
    simp [List.filterMap_cons, h1, h2]

/-- Witness for C1 at concrete checks: a passing, a failing and a passing
check yield exactly the failing check's message. -/
theorem C1_runValidations_order_witness :
    runValidations [passingCheck, failingCheck, passingCheck] = [formatMessage] :=
  C1_runValidations_order.2.2.1 passingCheck failingCheck passingCheck
    formatMessage rfl rfl rfl

/-- Claim C6: `runValidations` of zero checks returns the empty sequence, and
whenever every supplied check passes the returned sequence is empty. -/
theorem C6_runValidations_empty :
    runValidations [] = [] ∧
    ∀ fns : List Check, (∀ fn ∈ fns, fn () = none) → runValidations fns = [] := by
  refine ⟨rfl, ?_⟩
  intro fns h
  rw [runValidations_eq_filterMap]
  exact List.filterMap_eq_nil_iff.mpr h

/-- Witness for C6 at a concrete all-passing check list. -/
theorem C6_runValidations_empty_witness :
    runValidations [passingCheck] = [] :=
  C6_runValidations_empty.2 [passingCheck]
    (by intro fn hfn; rw [List.mem_singleton] at hfn; subst hfn; rfl)

/-- Claim C7: `isNil` holds exactly for `null`, `undefined`, or a value that
is a string and is the empty string; and `isNull` and `isUndefined` are
mutually exclusive. -/
theorem C7_isNil_characterization :
    ∀ v : JSVal,
      isNil v = (isNull v || isUndefined v || (isString v && (v == JSVal.str []))) ∧
      (isNull v && isUndefined v) = false := by
  intro v
  refine ⟨?_, ?_⟩
  · cases v with
    | str s => cases s <;> rfl
    | nullV => rfl
    | undefinedV => rfl
    | num n => rfl
    | boolV b => rfl
    | object => rfl
  · cases v <;> rfl

/-- Claim C8: `isTruthy` is the exact boolean complement of `isFalsy`, and
`isFalsy` holds exactly for the number zero, the NaN number, the boolean
`false`, and the nil values. -/
theorem C8_isTruthy_complement :
    ∀ v : JSVal,
      isTruthy v = !isFalsy v ∧
      (isFalsy v = true ↔
        v = JSVal.num (.val 0) ∨ v = JSVal.num .nan ∨ v = JSVal.boolV false ∨
          isNil v = true) := by
  intro v
  refine ⟨rfl, ?_⟩
  cases v with
  | num n =>
      cases n with
      | nan =>
          simp [isFalsy, strictEqZero, numberIsNaN, strictEqFalse, isNil, isNull,
            isUndefined, isString, strictEqEmptyString]
      | val q =>
          simp [isFalsy, strictEqZero, numberIsNaN, strictEqFalse, isNil, isNull,
            isUndefined, isString, strictEqEmptyString]
  | nullV =>
      simp [isFalsy, strictEqZero, numberIsNaN, strictEqFalse, isNil, isNull,
        isUndefined, isString, strictEqEmptyString]
  | undefinedV =>
      simp [isFalsy, strictEqZero, numberIsNaN, strictEqFalse, isNil, isNull,
        isUndefined, isString, strictEqEmptyString]
  | str s =>
      simp [isFalsy, strictEqZero, numberIsNaN, strictEqFalse, isNil, isNull,
        isUndefined, isString, strictEqEmptyString, List.isEmpty_iff]
  | boolV b =>
      cases b <;>
        simp [isFalsy, strictEqZero, numberIsNaN, strictEqFalse, isNil, isNull,
          isUndefined, isString, strictEqEmptyString]
  | object =>
      simp [isFalsy, strictEqZero, numberIsNaN, strictEqFalse, isNil, isNull,
        isUndefined, isString, strictEqEmptyString]

/-- Claim C4: the email check passes `a@b.com`, and fails every string not
containing the `@` code unit with the error message `Invalid email address.`
tagged stage `validate`. -/
theorem C4_validateEmail :
    validateEmail (.str (jsOfString "a@b.com")) = .ok none ∧
    ∀ s : JsString, s.contains atSign = false →
      validateEmail (.str s) = .ok (some emailInvalidMessage) := by
  refine ⟨rfl, ?_⟩
  intro s h
  simp only [validateEmail, h, Bool.not_false, if_true]
  rfl

/-- Witness for C4 at the concrete string `abc`. -/
theorem C4_validateEmail_witness :
    validateEmail (.str (jsOfString "abc")) = .ok (some emailInvalidMessage) :=
  C4_validateEmail.2 (jsOfString "abc") (by decide)

/-- Claim C5: the pattern check for `/^.{8,72}$/` fails every 7-code-unit
string and every 73-code-unit string and passes the 8- and 72-character
strings of `a`; the pattern check for `/^[a-zA-Z0-9]+$/` passes `AB12` and
fails `AB-12` and the empty string; each failure is the error message
`Value does not meet required format.` tagged stage `validate`. -/
theorem C5_validateRegex_patterns :
    (∀ s : JsString, s.length = 7 →
        validateRegex testDotRange8to72 (.str s) = some formatMessage) ∧
    validateRegex testDotRange8to72 (.str (List.replicate 8 97)) = none ∧
    validateRegex testDotRange8to72 (.str (List.replicate 72 97)) = none ∧
    (∀ s : JsString, s.length = 73 →
        validateRegex testDotRange8to72 (.str s) = some formatMessage) ∧
    validateRegex testAlphaNum (.str (jsOfString "AB12")) = none ∧
    validateRegex testAlphaNum (.str (jsOfString "AB-12")) = some formatMessage ∧
    validateRegex testAlphaNum (.str (jsOfString "")) = some formatMessage := by
  refine ⟨?_, by decide, by decide, ?_, by decide, by decide, by decide⟩
  · intro s h
    simp [validateRegex, toStringForRegexTest, testDotRange8to72, h, isFalsy,
      strictEqZero, numberIsNaN, strictEqFalse, isNil, isNull, isUndefined,
      isString, strictEqEmptyString, formatMessage]
  · intro s h
    simp [validateRegex, toStringForRegexTest, testDotRange8to72, h, isFalsy,
      strictEqZero, numberIsNaN, strictEqFalse, isNil, isNull, isUndefined,
      isString, strictEqEmptyString, formatMessage]

/-- Witness for C5 at a concrete 7-character string. -/
theorem C5_validateRegex_patterns_witness :
    validateRegex testDotRange8to72 (.str (jsOfString "aaaaaaa")) = some formatMessage :=
  C5_validateRegex_patterns.1 (jsOfString "aaaaaaa") (by decide)

/-- Counterexample to claim C2 at the nil value `null`: the email check does
not return a message there — the property access `value.includes` throws a
TypeError — and the alphanumeric pattern check returns no message, because
`RegExp.test` coerces `null` to the four-letter string `null`, which matches
`/^[a-zA-Z0-9]+$/`. -/
theorem C2_nil_counterexample :
    validateEmail CellVal.nullV =
      .error "TypeError: Cannot read properties of null (reading includes)" ∧
    validateRegex testAlphaNum CellVal.nullV = none := ⟨rfl, by decide⟩

/-- Claim C2 as amended: for the empty string both validators fail with
their messages and neither throws; for `null` and `undefined` the email
check throws a TypeError, while the pattern check coerces the value to the
string `null` or `undefined` and tests that — `/^.{8,72}$/` fails `null`
(4 code units) but passes `undefined` (9 code units), and
`/^[a-zA-Z0-9]+$/` passes both. -/
theorem C2_nil_behavior :
    validateEmail (.str []) = .ok (some emailInvalidMessage) ∧
    validateRegex testDotRange8to72 (.str []) = some formatMessage ∧
    validateRegex testAlphaNum (.str []) = some formatMessage ∧
    validateEmail .nullV =
      .error "TypeError: Cannot read properties of null (reading includes)" ∧
    validateEmail .undefinedV =
      .error "TypeError: Cannot read properties of undefined (reading includes)" ∧
    validateRegex testDotRange8to72 .nullV = some formatMessage ∧
    validateRegex testDotRange8to72 .undefinedV = none ∧
    validateRegex testAlphaNum .nullV = none ∧
    validateRegex testAlphaNum .undefinedV = none :=
  ⟨rfl, by decide, by decide, rfl, rfl, by decide, by decide, by decide, by decide⟩

/-- Counterexample to claim C3: the sheets `Employee Departments` and
`Employee Groups` contain no field with the `primary` flag set, so not every
sheet has exactly one. -/
theorem C3_primary_counterexample :
    countPrimary EmployeeDepartments = 0 ∧ countPrimary EmployeeGroups = 0 := by
  decide

/-- Claim C3 as amended: every sheet of the configured workbook has at most
one primary field; `Employees`, `Employee Roles` and `Associated Employees`
have exactly one, while `Employee Departments` and `Employee Groups` have
none. -/
theorem C3_primary_at_most_one :
    (basicWorkbook.sheets.all fun s => countPrimary s ≤ 1) = true ∧
    countPrimary Employees = 1 ∧
    countPrimary EmployeeRoles = 1 ∧
    countPrimary EmployeeDepartments = 0 ∧
    countPrimary EmployeeGroups = 0 ∧
    countPrimary AssociatedEmployees = 1 := by
  decide

/-- Claim C9: every `ReferenceField` of the configured workbook targets a
primary or unique field of an existing sheet; concretely the sole reference
field is `EmployeeId` of `Employee Roles`, targeting field `id` of sheet
`Employees`, and that target field is both primary and unique. -/
theorem C9_reference_integrity :
    refIntegrityOk basicWorkbook.sheets = true ∧
    (EmployeeRoles.fields.filter isReferenceField).map
        (fun f => (f.name, f.sheetKey, f.foreignKey)) =
      [("EmployeeId", some "Employees", some "id")] ∧
    (Employees.fields.filter fun f => f.name == "id").map
        (fun f => (f.primary, f.unique)) =
      [(true, true)] := by
  decide

/-- Claim C10: every field of every sheet of the configured workbook is
visible at the mapping, review and export stages. -/
theorem C10_all_stages_visible :
    allStagesVisible basicWorkbook.sheets = true := by
  decide

end Stormloop
